import Mathlib

/-!
Verification of the reactive subscription lifecycle controller of
`src/database/index.ts` (vuefire database module).

The module is shallowly embedded: the mutation primitives (`ops`), the
unbind registry (`internalUnbind`), the lifecycle controller
(`_useDatabaseRef` / `bindDatabaseRef` and its promise settlement
handlers, watcher, scope teardown) and the entry points
(`useList` / `useObject`) are translated into executable Lean
definitions, and the specification's claims are settled as theorems
about those definitions.

Values stored in containers, error payloads, reset policies and handle
identities are all modelled as natural numbers; reactive cells are
modelled by the values they hold, and asynchronous settlement by
explicit events on a controller state.
-/

namespace Vuefire

/-! ## Mutation primitives (`ops`, src lines 27-31)

The primitive `add` is `array.splice(index, 0, data)` and `remove` is
`array.splice(index, 1)`.  Indices are modelled as naturals (the spec
only admits non-negative indices); `splice` clamps a start index past
the end of the array to the array length, hence the `min` in `opsAdd`
(`eraseIdx` past the end is already a no-op, matching `splice`). -/

/-- The `add` mutation primitive: `(array, index, data) => array.splice(index, 0, data)`. -/
def opsAdd (array : List Nat) (index : Nat) (data : Nat) : List Nat :=
  array.insertIdx (min index array.length) data

/-- The `remove` mutation primitive: `(array, index) => array.splice(index, 1)`. -/
def opsRemove (array : List Nat) (index : Nat) : List Nat :=
  array.eraseIdx index

/-! ## Unbind registry (`internalUnbind`, src lines 135-147)

A `Record<string, UnbindType>` is modelled as an association list from
keys to handle identities; the `unbinds` argument may be `undefined`
(`Option`).  Invoking a stored unbind handle is modelled by returning
the list of invocations `(handleId, reset)` performed by the call, so
"exactly once" is the length of that list. -/

/-- A `Record<string, UnbindType>`: keys mapped to unbind-handle identities. -/
abbrev Unbinds := List (String × Nat)

/-- Property lookup `unbinds[key]` on the record. -/
def lookupKey (u : Unbinds) (key : String) : Option Nat :=
  match u with
  | [] => none
  | (k, h) :: rest => if k = key then some h else lookupKey rest key

/-- Property deletion `delete unbinds[key]` on the record. -/
def removeKey (u : Unbinds) (key : String) : Unbinds :=
  u.filter (fun kv => kv.1 ≠ key)

/-- The registry pop `internalUnbind(key, unbinds, reset)`: if the record
exists and has the key, invoke the stored handle with `reset` and delete
the entry; otherwise do nothing.  Returns the resulting record together
with the list of handle invocations performed by the call. -/
def internalUnbind (key : String) (unbinds : Option Unbinds) (reset : Nat) :
    Option Unbinds × List (Nat × Nat) :=
  match unbinds with
  | none => (none, [])
  | some u =>
    match lookupKey u key with
    | some h => (some (removeKey u key), [(h, reset)])
    | none => (some u, [])

/-! ## Subscription lifecycle controller (`_useDatabaseRef`, src lines 39-133)

The controller owns four reactive cells (`data`, `error`, `pending`,
`promise`), the definitely-assigned `_unbind` variable, and an optional
watcher over a reactive reference.  Bind attempts are numbered `0, 1,
2, ...` in creation order; the promise created by attempt `k` is
identified with `k`, as is the unbind handle returned by the binder
collaborator for attempt `k`.

The effect of invoking an unbind handle — detaching the live listener
of its attempt — follows the collaborator contract of spec section 6
(the binder itself is an external collaborator outside `src`):
invocations are logged and the attempt's subscription leaves the live
set.  Container mutation and container reset are outside this state
(they belong to the excluded binder algorithms). -/

/-- The controller-owned mutable state: the `error`, `pending` and
`promise` cells, the number of bind attempts started so far, the
attempt whose unbind handle is currently stored in `_unbind`, whether
the reference watcher is installed and not yet stopped, the attempts
whose subscriptions are currently live, and the log of unbind-handle
invocations `(attemptId, reset)`, most recent first. -/
structure CtrlState where
  errorVal : Option Nat
  pendingVal : Bool
  promiseVal : Option Nat
  attempts : Nat
  curUnbind : Nat
  watcherActive : Bool
  live : List Nat
  unbindCalls : List (Nat × Nat)
  deriving Repr, DecidableEq

/-- One run of `bindDatabaseRef` (src lines 53-100): start attempt
`s.attempts`, whose binder call attaches a new live subscription and
returns a fresh unbind handle stored into `_unbind`, and record the new
attempt's promise in `promise.value`.  Note what it does NOT do: it
does not invoke the previous unbind handle, and it touches neither
`error` nor `pending`. -/
def bindDatabaseRef (s : CtrlState) : CtrlState :=
  { s with
    attempts := s.attempts + 1
    curUnbind := s.attempts
    live := s.attempts :: s.live
    promiseVal := some s.attempts }

/-- The settlement handlers attached to every attempt's promise
(src lines 89-93): `p.catch((reason) => { error.value = reason })
.finally(() => { pending.value = false })`.  `outcome = some reason`
is a rejection, `none` a resolution.  The closures do not consult which
promise is current, so the update is unconditional; accordingly the
settling attempt's identity is not even an input here. -/
def settleHandlers (s : CtrlState) (outcome : Option Nat) : CtrlState :=
  let afterCatch :=
    match outcome with
    | some reason => { s with errorVal := some reason }
    | none => s
  { afterCatch with pendingVal := false }

/-- Invoking the unbind handle of attempt `pid` with policy `reset`:
per the spec-section-6 collaborator contract the handle detaches its
attempt's listener; the invocation is logged. -/
def invokeUnbindHandle (s : CtrlState) (pid : Nat) (reset : Nat) : CtrlState :=
  { s with live := s.live.erase pid, unbindCalls := (pid, reset) :: s.unbindCalls }

/-- The externally observable events on a constructed controller:
`refChange` (the watched reactive reference changed), `settle pid
outcome` (attempt `pid`'s promise settled), `scopeDispose reset` (the
owning scope ended, running the `onScopeDispose` callback, src lines
109-117), and `handleUnbind reset` (the returned handle's `unbind()`,
src lines 120-123). -/
inductive Event where
  | refChange
  | settle (pid : Nat) (outcome : Option Nat)
  | scopeDispose (reset : Nat)
  | handleUnbind (reset : Nat)
  deriving Repr, DecidableEq

/-- Event semantics.  A reference change re-runs `bindDatabaseRef` only
while the watcher is installed and unstopped.  `onScopeDispose` runs
`_unbind(options.reset)` and nothing else.  `unbind()` runs
`stopWatcher()` then `_unbind(options.reset)`. -/
def step (s : CtrlState) (e : Event) : CtrlState :=
  match e with
  | .refChange => if s.watcherActive then bindDatabaseRef s else s
  | .settle _ outcome => settleHandlers s outcome
  | .scopeDispose reset => invokeUnbindHandle s s.curUnbind reset
  | .handleUnbind reset => invokeUnbindHandle { s with watcherActive := false } s.curUnbind reset

/-- Controller construction (src lines 43-107): `error = ref()`,
`pending = ref(true)`, no promise yet; if the reference is a reactive
cell a default-immediate watcher is installed and fires `bindDatabaseRef`
once at setup, otherwise `bindDatabaseRef` runs once directly.  Either
way exactly one bind attempt has run when construction returns. -/
def initState (isReactive : Bool) : CtrlState :=
  bindDatabaseRef
    { errorVal := none
      pendingVal := true
      promiseVal := none
      attempts := 0
      curUnbind := 0
      watcherActive := isReactive
      live := []
      unbindCalls := [] }

/-- Folding a list of events over a controller state. -/
def runEvents (s : CtrlState) (es : List Event) : CtrlState :=
  es.foldl step s

/-! ## The reference watcher over observed values (src lines 102-107)

For a reactive reference, `watch(reference, bindDatabaseRef,
{ immediate: true })` fires the callback once at setup with the initial
value and then once per change of the cell to a value different from
its current one (writing the same value back does not trigger). -/

/-- The values with which the watcher callback fires after setup, given
the cell's current value and the list of values successively written to
it: a write equal to the current value does not fire. -/
def watchFires (cur : Nat) (sets : List Nat) : List Nat :=
  match sets with
  | [] => []
  | x :: rest => if x = cur then watchFires cur rest else x :: watchFires x rest

/-- A reactive-reference controller run: construction with initial
reference value `v0` (the immediate watcher fire is the bind inside
`initState true`), followed by one `refChange` event per post-setup
watcher fire caused by the writes `sets`. -/
def runRefUpdates (v0 : Nat) (sets : List Nat) : CtrlState :=
  (watchFires v0 sets).foldl (fun s _ => step s Event.refChange) (initState true)

/-! ## Container values and entry points (src lines 45, 56-78, 158-179)

`bindDatabaseRef` selects the binder collaborator by inspecting the
container's current runtime shape: `Array.isArray(data.value)` picks
`bindAsArray`, anything else picks `bindAsObject`.  `useList` allocates
`ref([])` and `useObject` allocates `ref()` (undefined), but both pass
`{ target: data, ...options }`, so a caller-supplied `options.target`
spreads over — and replaces — the allocated container. -/

/-- A container value: an array or a single (possibly absent) value. -/
inductive CVal where
  | arr (xs : List Nat)
  | single (v : Option Nat)
  deriving Repr, DecidableEq

/-- The two binder collaborators of src lines 56-78. -/
inductive Binder where
  | array
  | object
  deriving Repr, DecidableEq

/-- Binder selection in `bindDatabaseRef`: `Array.isArray(data.value)`
chooses `bindAsArray`, otherwise `bindAsObject`. -/
def selectBinder (v : CVal) : Binder :=
  match v with
  | .arr _ => .array
  | .single _ => .object

/-- The spread `{ target: data, ...options }` used by both entry
points: a caller-supplied target wins over the entry point's allocated
container. -/
def mergedTarget (callerTarget : Option CVal) (entryDefault : CVal) : CVal :=
  callerTarget.getD entryDefault

/-- The container value `useList` hands to the first bind, and the
binder that bind selects: the allocated container is `ref([])`
(src line 163). -/
def useListFirstBind (callerTarget : Option CVal) : CVal × Binder :=
  let v := mergedTarget callerTarget (CVal.arr [])
  (v, selectBinder v)

/-- The container value `useObject` hands to the first bind, and the
binder that bind selects: the allocated container is `ref()` holding
undefined (src line 174). -/
def useObjectFirstBind (callerTarget : Option CVal) : CVal × Binder :=
  let v := mergedTarget callerTarget (CVal.single none)
  (v, selectBinder v)

/-! ## Handle accessor wiring (src lines 125-132)

The returned handle is `Object.defineProperties(data, ...)` with getter
properties `data`, `error`, `pending`, `promise`, `unbind`.  Each getter
closes over one of the controller's cells; `handleGet` records which
cell each accessor returns. -/

/-- The distinct reactive cells allocated by the controller
(src lines 45-49). -/
inductive Cell where
  | dataCell
  | errorCell
  | pendingCell
  | promiseCell
  deriving Repr, DecidableEq

/-- The cell-valued accessor properties of the returned handle. -/
inductive Accessor where
  | data
  | error
  | pending
  | promise
  deriving Repr, DecidableEq

/-- The accessor wiring exactly as written in the source:
`data: { get: () => data }`, `error: { get: () => error }`,
`pending: { get: () => error }`, `promise: { get: () => promise }`
(src lines 126-130; note line 128 returns `error`). -/
def handleGet : Accessor → Cell
  | .data => .dataCell
  | .error => .errorCell
  | .pending => .errorCell
  | .promise => .promiseCell

/-! ## Handle identity (src lines 45 and 125-132)

Object identities are modelled as naturals.  `const data =
options.target || ref(options.initialValue)` picks the caller's cell
when supplied; `Object.defineProperties(data, ...)` adds the accessor
properties to that very object and returns it. -/

/-- The object chosen as the `data` container: the caller-supplied
target if any, else a freshly allocated ref (src line 45). -/
def controllerDataCell (target : Option Nat) (fresh : Nat) : Nat :=
  target.getD fresh

/-- The identity facts about the returned handle: which object is
returned, and which object its `data` accessor yields. -/
structure HandleWiring where
  returned : Nat
  dataAcc : Nat
  deriving Repr, DecidableEq

/-- The return expression `Object.defineProperties(data, { data:
{ get: () => data }, ... })`: `defineProperties` mutates its first
argument in place and returns it, and the `data` getter closes over the
same object. -/
def definePropsHandle (dataId : Nat) : HandleWiring :=
  { returned := dataId, dataAcc := dataId }

/-! ## Helper lemmas -/

theorem lookupKey_removeKey (u : Unbinds) (key : String) :
    lookupKey (removeKey u key) key = none := by
  induction u with
  | nil => rfl
  | cons kv rest ih =>
    by_cases hk : kv.1 = key
    · simpa [removeKey, List.filter_cons, hk] using ih
    · simpa [removeKey, List.filter_cons, hk, lookupKey] using ih

theorem attempts_foldl_refChange (fires : List Nat) (s : CtrlState)
    (hw : s.watcherActive = true) :
    (fires.foldl (fun t _ => step t Event.refChange) s).attempts = s.attempts + fires.length ∧
    (fires.foldl (fun t _ => step t Event.refChange) s).watcherActive = true := by
  induction fires generalizing s with
  | nil => exact ⟨rfl, hw⟩
  | cons x rest ih =>
    have hstep : (step s Event.refChange).watcherActive = true := by
      simp [step, hw, bindDatabaseRef]
    have hrest := ih (step s Event.refChange) hstep
    refine ⟨?_, by simpa using hrest.2⟩
    rw [List.foldl_cons, hrest.1]
    simp only [step, hw, if_true, bindDatabaseRef, List.length_cons]
    omega

/-! ## Claim C7: insert/remove inverse law -/

/-- C7: for every sequence `s`, item `x` and index `i` with
`0 ≤ i ≤ length s`, the `add` primitive at `i` followed by the `remove`
primitive at the same `i` restores the original sequence. -/
theorem C7_insert_remove_inverse (s : List Nat) (x : Nat) (i : Nat)
    (h : i ≤ s.length) :
    opsRemove (opsAdd s i x) i = s := by
  unfold opsAdd opsRemove
  rw [min_eq_left h]
  exact List.eraseIdx_insertIdx i s

/-- Witness for C7 at `s = [10, 20, 30]`, `x = 99`, `i = 2`. -/
theorem C7_insert_remove_inverse_witness :
    (2 : Nat) ≤ [10, 20, 30].length ∧ opsRemove (opsAdd [10, 20, 30] 2 99) 2 = [10, 20, 30] :=
  ⟨by decide, C7_insert_remove_inverse [10, 20, 30] 99 2 (by decide)⟩

/-! ## Claim C8: registry pop semantics -/

/-- C8: `internalUnbind` on an `undefined` record or an absent key is a
no-op that performs no invocation (and, being a total function, never
throws); on a present key it invokes the stored handle exactly once with
the reset policy and removes the entry, so an immediately repeated call
with the same key is a no-op. -/
theorem C8_registry_pop (key : String) (u : Unbinds) (h r r2 : Nat)
    (hpresent : lookupKey u key = some h) :
    internalUnbind key none r = (none, []) ∧
    internalUnbind key (some u) r = (some (removeKey u key), [(h, r)]) ∧
    internalUnbind key (some (removeKey u key)) r2 = (some (removeKey u key), []) ∧
    (∀ u2 : Unbinds, lookupKey u2 key = none →
      internalUnbind key (some u2) r = (some u2, [])) := by
  refine ⟨rfl, ?_, ?_, ?_⟩
  · simp [internalUnbind, hpresent]
  · simp [internalUnbind, lookupKey_removeKey]
  · intro u2 habs
    simp [internalUnbind, habs]

/-- Witness for C8 at key `"a"`, record `[("a", 3), ("b", 4)]`, reset `7`. -/
theorem C8_registry_pop_witness :
    lookupKey [("a", 3), ("b", 4)] "a" = some 3 ∧
    internalUnbind "a" (some [("a", 3), ("b", 4)]) 7 =
      (some (removeKey [("a", 3), ("b", 4)] "a"), [(3, 7)]) :=
  ⟨by decide, (C8_registry_pop "a" [("a", 3), ("b", 4)] 3 7 9 (by decide)).2.1⟩

/-! ## Claim C1: settlements of superseded attempts -/

/-- C1 counterexample: construct with a reactive reference (attempt 0),
change the reference (attempt 1 starts, so attempt 0 is superseded:
the current promise is 1), then let attempt 0's promise reject with
failure 5.  The claim says this settlement changes none of `error`,
`pending`, `promise`; in fact it overwrites `error` with the stale
failure and flips `pending` from true to false. -/
theorem C1_counterexample :
    ((step (initState true) Event.refChange).promiseVal = some 1 ∧
      (step (initState true) Event.refChange).errorVal = none ∧
      (step (initState true) Event.refChange).pendingVal = true) ∧
    (step (step (initState true) Event.refChange) (Event.settle 0 (some 5))).errorVal
        = some 5 ∧
    (step (step (initState true) Event.refChange) (Event.settle 0 (some 5))).pendingVal
        = false := by
  decide

/-- C1 amended: a settlement of a superseded attempt (one whose promise
is no longer the current one) never replaces `promise` and never sets
`pending` back to true; but because the settlement handlers run
unguarded, it still sets `pending` to false, a superseded rejection
overwrites `error` with the stale failure, and a superseded resolution
leaves `error` unchanged. -/
theorem C1_superseded_settlement (s : CtrlState) (pid e : Nat)
    (hsup : s.promiseVal ≠ some pid) :
    (step s (Event.settle pid (some e))).promiseVal = s.promiseVal ∧
    (step s (Event.settle pid (some e))).pendingVal = false ∧
    (step s (Event.settle pid (some e))).errorVal = some e ∧
    (step s (Event.settle pid none)).promiseVal = s.promiseVal ∧
    (step s (Event.settle pid none)).pendingVal = false ∧
    (step s (Event.settle pid none)).errorVal = s.errorVal := by
  refine ⟨rfl, rfl, rfl, rfl, rfl, rfl⟩

/-- Witness for C1 amended: the state after a rebind, with the
superseded attempt 0 settling. -/
theorem C1_superseded_settlement_witness :
    (step (initState true) Event.refChange).promiseVal ≠ some 0 ∧
    (step (step (initState true) Event.refChange) (Event.settle 0 (some 5))).promiseVal
      = (step (initState true) Event.refChange).promiseVal :=
  ⟨by decide,
    (C1_superseded_settlement (step (initState true) Event.refChange) 0 5 (by decide)).1⟩

/-! ## Claim C2: at most one live subscription -/

/-- C2 counterexample: construct with a reactive reference, then change
the reference once.  The rebind attaches attempt 1's subscription while
attempt 0's is still live — two live subscriptions — and no unbind
handle has ever been invoked, contradicting the claim that the prior
attempt's handle is invoked before or as part of the new subscription. -/
theorem C2_counterexample :
    (step (initState true) Event.refChange).live = [1, 0] ∧
    (step (initState true) Event.refChange).unbindCalls = [] := by
  decide

/-- C2 amended: a rebind triggered by a reference change invokes no
unbind handle at all; it attaches the new attempt's subscription on top
of the still-live prior one and merely supersedes the stored `_unbind`
handle, so the prior subscription stays live until `unbind()` or scope
disposal — which invoke only the latest handle — runs. -/
theorem C2_rebind_leaves_prior_live (s : CtrlState)
    (hw : s.watcherActive = true) :
    (step s Event.refChange).unbindCalls = s.unbindCalls ∧
    (step s Event.refChange).live = s.attempts :: s.live ∧
    (step s Event.refChange).curUnbind = s.attempts := by
  simp [step, hw, bindDatabaseRef]

/-- Witness for C2 amended at the freshly constructed reactive
controller. -/
theorem C2_rebind_leaves_prior_live_witness :
    (initState true).watcherActive = true ∧
    (step (initState true) Event.refChange).unbindCalls = (initState true).unbindCalls :=
  ⟨by decide, (C2_rebind_leaves_prior_live (initState true) (by decide)).1⟩

/-! ## Claim C3: the `pending` accessor -/

/-- C3: the claim is right and the code is wrong.  The handle's
`pending` accessor is wired to the `error` cell (src line 128,
`pending: { get: () => error }`), not to the `pending` cell the
controller maintains, so `pending` and `error` expose the same cell
rather than distinct ones. -/
theorem C3_pending_accessor_miswired :
    handleGet Accessor.pending = Cell.errorCell ∧
    handleGet Accessor.pending ≠ Cell.pendingCell ∧
    handleGet Accessor.pending = handleGet Accessor.error ∧
    handleGet Accessor.error = Cell.errorCell := by
  decide

/-! ## Claim C4: per-attempt pending/error protocol -/

/-- C4 counterexample: construct reactively (attempt 0), reject attempt
0 with failure 7, then change the reference (attempt 1 starts).  At the
start of attempt 1 `pending` is false, though the claim says every
attempt starts by setting it true; and when attempt 1 then resolves,
`error` remains the stale 7, though the claim says resolution sets it
to undefined. -/
theorem C4_counterexample :
    (runEvents (initState true) [Event.settle 0 (some 7), Event.refChange]).promiseVal
        = some 1 ∧
    (runEvents (initState true) [Event.settle 0 (some 7), Event.refChange]).pendingVal
        = false ∧
    (step (runEvents (initState true) [Event.settle 0 (some 7), Event.refChange])
        (Event.settle 1 none)).errorVal = some 7 := by
  decide

/-- C4 amended: `pending` is set to true once, at construction — a
rebind does not set it back to true, and binding touches neither
`pending` nor `error`; when an attempt rejects, `error` is set to the
failure; when it resolves, `error` is left unchanged (it is not reset
to undefined); and once an attempt settles either way `pending` is set
to false unconditionally, whether or not the attempt is still the
current one. -/
theorem C4_settlement_protocol (s : CtrlState) (pid e : Nat) (b : Bool) :
    (initState b).pendingVal = true ∧
    (initState b).errorVal = none ∧
    (step s Event.refChange).pendingVal = s.pendingVal ∧
    (step s Event.refChange).errorVal = s.errorVal ∧
    (step s (Event.settle pid (some e))).errorVal = some e ∧
    (step s (Event.settle pid (some e))).pendingVal = false ∧
    (step s (Event.settle pid none)).errorVal = s.errorVal ∧
    (step s (Event.settle pid none)).pendingVal = false := by
  refine ⟨rfl, rfl, ?_, ?_, rfl, rfl, rfl, rfl⟩ <;>
    by_cases hw : s.watcherActive <;> simp [step, hw, bindDatabaseRef]

/-! ## Claim C5: entry-point containers and binder selection -/

/-- C5 counterexample: calling `useList` with a caller-supplied target
holding undefined hands that container — not an empty array — to the
first bind, which therefore selects the object-style binder; dually a
caller target holding an array makes `useObject` select the array-style
binder.  The claim's "for every call ... including a caller-supplied
target" fails. -/
theorem C5_counterexample :
    useListFirstBind (some (CVal.single none)) = (CVal.single none, Binder.object) ∧
    useObjectFirstBind (some (CVal.arr [5])) = (CVal.arr [5], Binder.array) := by
  decide

/-- C5 amended: when the caller supplies no target, `useList`'s
container at the first bind holds the empty array and the array-style
binder is selected, and `useObject`'s holds undefined and the
object-style binder is selected; but the spread
`{ target: data, ...options }` lets a caller-supplied target replace
the allocated container, and the binder is then selected from the
caller's container's current shape. -/
theorem C5_entry_containers (t : CVal) :
    useListFirstBind none = (CVal.arr [], Binder.array) ∧
    useObjectFirstBind none = (CVal.single none, Binder.object) ∧
    useListFirstBind (some t) = (t, selectBinder t) ∧
    useObjectFirstBind (some t) = (t, selectBinder t) :=
  ⟨rfl, rfl, rfl, rfl⟩

/-! ## Claim C6: one bind per observed reference value -/

/-- C6 counterexample: a reactive reference starting at 0 and then set
to 1 and back to 0 fires the watcher at setup and at both changes, so
the binding algorithm runs three times, while only two distinct
reference values (0 and 1) are ever observed — not "exactly once per
distinct reference value ever observed". -/
theorem C6_counterexample :
    (runRefUpdates 0 [1, 0]).attempts = 3 ∧
    ((0 : Nat) :: watchFires 0 [1, 0]).dedup.length = 2 := by
  decide

/-- C6 amended: a plain reference binds exactly once and a reference
change never rebinds it (no watcher is installed); a reactive reference
installs an immediate watcher, so the binding algorithm runs once at
setup plus once per subsequent change of the cell to a different value
— once per observed change event.  That equals once per distinct
reference value ever observed precisely when no previously observed
value recurs; a recurring value triggers a fresh rebind each time it
is observed again. -/
theorem C6_bind_per_observed_change (v0 : Nat) (sets : List Nat) :
    (initState false).attempts = 1 ∧
    step (initState false) Event.refChange = initState false ∧
    (runRefUpdates v0 sets).attempts = 1 + (watchFires v0 sets).length ∧
    ((v0 :: watchFires v0 sets).Nodup →
      (runRefUpdates v0 sets).attempts = (v0 :: watchFires v0 sets).dedup.length) := by
  have hcount := attempts_foldl_refChange (watchFires v0 sets) (initState true) (by decide)
  have h1 : (initState true).attempts = 1 := by decide
  refine ⟨rfl, by decide, ?_, ?_⟩
  · rw [runRefUpdates, hcount.1, h1]
  · intro hnd
    rw [runRefUpdates, hcount.1, h1, List.Nodup.dedup hnd]
    simp only [List.length_cons]
    omega

/-- Witness for C6 amended at initial value 0 and writes `[1, 2]`,
whose observed values 0, 1, 2 are pairwise distinct. -/
theorem C6_bind_per_observed_change_witness :
    ((0 : Nat) :: watchFires 0 [1, 2]).Nodup ∧
    (runRefUpdates 0 [1, 2]).attempts = ((0 : Nat) :: watchFires 0 [1, 2]).dedup.length :=
  ⟨by decide, (C6_bind_per_observed_change 0 [1, 2]).2.2.2 (by decide)⟩

/-! ## Claim C9: scope disposal does not stop the watcher -/

/-- C9: the scope-dispose callback invokes exactly the current
attempt's unbind handle with the configured reset policy and leaves the
watcher installed, so a reference change right after scope disposal
still starts a new bind attempt; only the handle's `unbind()` stops the
watcher. -/
theorem C9_scope_dispose_keeps_watcher (s : CtrlState) (r r2 : Nat)
    (hw : s.watcherActive = true) :
    (step s (Event.scopeDispose r)).watcherActive = true ∧
    (step s (Event.scopeDispose r)).unbindCalls = (s.curUnbind, r) :: s.unbindCalls ∧
    (step s (Event.scopeDispose r)).attempts = s.attempts ∧
    (step (step s (Event.scopeDispose r)) Event.refChange).attempts = s.attempts + 1 ∧
    (step s (Event.handleUnbind r2)).watcherActive = false := by
  refine ⟨hw, rfl, rfl, ?_, by simp [step, invokeUnbindHandle]⟩
  simp [step, invokeUnbindHandle, hw, bindDatabaseRef]

/-- Witness for C9 at the freshly constructed reactive controller with
reset policies 4 and 6. -/
theorem C9_scope_dispose_keeps_watcher_witness :
    (initState true).watcherActive = true ∧
    (step (initState true) (Event.scopeDispose 4)).watcherActive = true :=
  ⟨by decide, (C9_scope_dispose_keeps_watcher (initState true) 4 6 (by decide)).1⟩

/-! ## Claim C10: the handle is the container itself -/

/-- C10: the controller returns the very container object: the accessor
properties are defined on the container itself and `defineProperties`
returns it, the `data` accessor yields that same object, and when the
caller supplies `options.target` that caller-owned cell is the
container, is mutated in place, and is returned. -/
theorem C10_handle_is_container (t fresh : Nat) :
    (definePropsHandle (controllerDataCell (some t) fresh)).returned = t ∧
    (definePropsHandle (controllerDataCell (some t) fresh)).dataAcc = t ∧
    (definePropsHandle (controllerDataCell none fresh)).returned = fresh ∧
    (definePropsHandle (controllerDataCell none fresh)).dataAcc = fresh ∧
    (definePropsHandle (controllerDataCell (some t) fresh)).returned
      = (definePropsHandle (controllerDataCell (some t) fresh)).dataAcc :=
  ⟨rfl, rfl, rfl, rfl, rfl⟩

end Vuefire
